import Mathlib

/-!
Verification development for the repository `softee220/3-character-chat`.

The chat client `static/js/chatbot.js` is embedded shallowly below.  The
repository source contains two renditions of that file (an earlier one with a
`program_recommendation` redirect branch and a later one with a
`needs_report_generation` follow-up branch); both share their DOM helpers
(`appendMessage`, `removeMessage`), their load handler and their error
handling, so those are embedded once and the two `sendMessage` bodies are
embedded as `sendBodyV1` / `sendBodyV2`.

The analysis backend (`services/chatbot_service.py`) is not part of the
source tree we were given; the parts of it that the claims mention (composite
index, tier bands, retrieval, signal extraction) are modelled from the spec
and from `IMPLEMENTATION_GUIDE.md`, as marked on each definition.
-/

/-- How a string is put into a DOM node: via `textContent` (the browser makes
a literal text node) or via `innerHTML` (the browser parses markup).
`chatbot.js` only ever assigns message text through `textContent`
(`messageElem.textContent = text` for user messages and
`textContainer.textContent = text` for bot messages). -/
inductive TextInsertion where
  | textContent (s : String)
  | innerHTML (s : String)
deriving DecidableEq

/-- A minimal model of HTML tag parsing: the characters a browser would keep
as text if a string were assigned via `innerHTML` (everything between `<` and
`>` is consumed as markup).  It only serves to give `innerHTML` a rendering
semantics different from `textContent`. -/
def stripTags : Bool → List Char → List Char
  | _, [] => []
  | true, c :: cs => if c = '>' then stripTags false cs else stripTags true cs
  | false, c :: cs => if c = '<' then stripTags true cs else c :: stripTags false cs

/-- The text a browser displays for a given insertion: `textContent` shows
the string verbatim, `innerHTML` parses the markup away. -/
def renderedText : TextInsertion → String
  | TextInsertion.textContent s => s
  | TextInsertion.innerHTML s => String.mk (stripTags false s.data)

/-- One message element of the chat log, as built by `appendMessage` in
`chatbot.js`: a `div` with id `msg-N` and class `message <sender>`, carrying
its text insertion and an optional bot image. -/
structure MessageElem where
  id : String
  sender : String
  textIns : TextInsertion
  image : Option String
deriving DecidableEq

/-- The chat-log DOM (`#chat-log`'s children, in order) together with the
`messageIdCounter` global of `chatbot.js`. -/
structure DomState where
  counter : Nat
  log : List MessageElem
deriving DecidableEq

/-- The id string `msg-${n}` minted by `appendMessage`. -/
def mkId (n : Nat) : String := "msg-" ++ Nat.repr n

/-- `appendMessage(sender, text, imageSrc)` from `chatbot.js`: mints the id
`msg-${messageIdCounter++}`, builds the message element — the text always
inserted via `textContent` —, appends it to the chat log and returns the id. -/
def appendMessage (sender text : String) (imageSrc : Option String)
    (st : DomState) : String × DomState :=
  let messageId := mkId st.counter
  (messageId,
    { counter := st.counter + 1,
      log := st.log ++ [{ id := messageId, sender := sender,
                          textIns := TextInsertion.textContent text,
                          image := imageSrc }] })

/-- `removeMessage(messageId)` from `chatbot.js`: `document.getElementById`
finds the first element with that id, if any, and `elem.remove()` deletes
exactly that element. -/
def removeMessage (messageId : String) (st : DomState) : DomState :=
  { st with log := st.log.eraseP (fun e => e.id == messageId) }

/-- The `program_recommendation` object of an `/api/chat` response
(spec section 6): fields `image`, `message`, `sentiment`, each possibly
absent. -/
structure Recommendation where
  image : Option String
  message : Option String
  sentiment : Option String
deriving DecidableEq

/-- An `/api/chat` response body (spec section 6): `reply`, optional `image`,
optional `needs_report_generation` boolean, optional `program_recommendation`
object. -/
structure ChatResponse where
  reply : Option String
  image : Option String
  needs_report_generation : Option Bool
  program_recommendation : Option Recommendation
deriving DecidableEq

/-- JavaScript `x || y` for a possibly-absent string `x`: an absent or empty
string is falsy and falls through to `y`. -/
def jsOrStr (x : Option String) (y : String) : String :=
  match x with
  | some s => if s = "" then y else s
  | none => y

/-- JavaScript `x || null` for a possibly-absent string (the `imagePath`
computation): an absent or empty string becomes `null`. -/
def jsOrNull (x : Option String) : Option String :=
  match x with
  | some s => if s = "" then none else some s
  | none => none

/-- What the awaited `fetch("/api/chat", ...)` produced for one request:
a rejection (network failure, or a body on which `response.json()` fails) or
a response carrying its `ok` flag and parsed JSON body. -/
inductive FetchOutcome where
  | reject
  | response (ok : Bool) (data : ChatResponse)
deriving DecidableEq

/-- The externally visible effects of a send: the POSTs to `/api/chat`
(body `{message, username}` — braces appear only as JSON punctuation) and
the `window.location.href` redirect to `/program_recommendation` with its
`image`, `message` and `sentiment` query parameters. -/
inductive ClientAction where
  | fetchChat (message username : String)
  | redirect (image message sentiment : String)
deriving DecidableEq

/-- The loading bubble text shown while waiting for the server. -/
def loadingText : String := "생각 중..."

/-- The fixed user-visible fallback appended by the catch block of
`sendMessage`. -/
def sendErrorText : String := "죄송합니다. 오류가 발생했습니다. 다시 시도해주세요."

/-- The fixed user-visible fallback appended by the catch handler of the
automatic report follow-up request. -/
def reportErrorText : String := "죄송합니다. 리포트 생성 중 오류가 발생했습니다."

/-- The body of `sendMessage` from the loading bubble on, first rendition of
`chatbot.js` (the one with the `program_recommendation` branch): shows the
loading bubble, POSTs `{message, username}`, throws on a non-ok status; on a
parsed response removes the bubble and then either redirects immediately
(when `data.program_recommendation` is present — per the response schema that
field is an object when present, hence truthy) or renders
`data.reply || ""` with `data.image || null`; any rejection or thrown error
lands in the catch block, which removes the bubble and appends the fixed
error reply. -/
def sendBodyV1 (message username : String) (outcome : FetchOutcome)
    (st : DomState) : DomState × List ClientAction :=
  let loadingId := (appendMessage "bot" loadingText none st).1
  let st1 := (appendMessage "bot" loadingText none st).2
  let req := [ClientAction.fetchChat message username]
  match outcome with
  | FetchOutcome.reject =>
      ((appendMessage "bot" sendErrorText none (removeMessage loadingId st1)).2, req)
  | FetchOutcome.response ok data =>
      if ok = false then
        ((appendMessage "bot" sendErrorText none (removeMessage loadingId st1)).2, req)
      else
        let st2 := removeMessage loadingId st1
        match data.program_recommendation with
        | some rec =>
            (st2, req ++ [ClientAction.redirect
              (jsOrStr rec.image (jsOrStr data.image ""))
              (jsOrStr rec.message (jsOrStr data.reply ""))
              (jsOrStr rec.sentiment "positive")])
        | none =>
            ((appendMessage "bot" (jsOrStr data.reply "") (jsOrNull data.image) st2).2, req)

/-- `sendMessage(isInitial)` of the first rendition of `chatbot.js`: the
message is `"init"` when initial, otherwise the trimmed input value — with an
early return when the trimmed input is empty — and a user message is appended
for non-initial sends before the common body runs. -/
def sendMessageV1 (isInitial : Bool) (inputValue username : String)
    (outcome : FetchOutcome) (st : DomState) : DomState × List ClientAction :=
  if isInitial then sendBodyV1 "init" username outcome st
  else
    let message := inputValue.trim
    if message = "" then (st, [])
    else sendBodyV1 message username outcome (appendMessage "user" message none st).2

/-- The automatic report follow-up of the second rendition of `chatbot.js`
(inside `setTimeout`, delay abstracted away): shows a new loading bubble,
POSTs `{message: "", username}`, and on a parsed body removes the bubble and
renders the reply (`response.ok` is not checked on this path); a rejection
lands in the `.catch` handler, which removes the bubble and appends the fixed
report error reply. -/
def reportFollowUp (username : String) (outcome2 : FetchOutcome)
    (st : DomState) : DomState × List ClientAction :=
  let loadingId2 := (appendMessage "bot" loadingText none st).1
  let st1 := (appendMessage "bot" loadingText none st).2
  let req := [ClientAction.fetchChat "" username]
  match outcome2 with
  | FetchOutcome.reject =>
      ((appendMessage "bot" reportErrorText none (removeMessage loadingId2 st1)).2, req)
  | FetchOutcome.response _ data =>
      ((appendMessage "bot" (jsOrStr data.reply "") (jsOrNull data.image)
          (removeMessage loadingId2 st1)).2, req)

/-- The body of `sendMessage` from the loading bubble on, second rendition of
`chatbot.js` (the one with the `needs_report_generation` branch): renders the
reply, then — exactly when `data.needs_report_generation === true` — issues
the automatic empty-message report request. -/
def sendBodyV2 (message username : String) (outcome outcome2 : FetchOutcome)
    (st : DomState) : DomState × List ClientAction :=
  let loadingId := (appendMessage "bot" loadingText none st).1
  let st1 := (appendMessage "bot" loadingText none st).2
  let req := [ClientAction.fetchChat message username]
  match outcome with
  | FetchOutcome.reject =>
      ((appendMessage "bot" sendErrorText none (removeMessage loadingId st1)).2, req)
  | FetchOutcome.response ok data =>
      if ok = false then
        ((appendMessage "bot" sendErrorText none (removeMessage loadingId st1)).2, req)
      else
        let st3 := (appendMessage "bot" (jsOrStr data.reply "") (jsOrNull data.image)
          (removeMessage loadingId st1)).2
        if data.needs_report_generation = some true then
          let r := reportFollowUp username outcome2 st3
          (r.1, req ++ r.2)
        else (st3, req)

/-- `sendMessage(isInitial)` of the second rendition of `chatbot.js`. -/
def sendMessageV2 (isInitial : Bool) (inputValue username : String)
    (outcome outcome2 : FetchOutcome) (st : DomState) : DomState × List ClientAction :=
  if isInitial then sendBodyV2 "init" username outcome outcome2 st
  else
    let message := inputValue.trim
    if message = "" then (st, [])
    else sendBodyV2 message username outcome outcome2
      (appendMessage "user" message none st).2

/-- The `window` `load` handler of `chatbot.js` (after its 500 ms delay):
when the chat log element exists and `chatLog.childElementCount === 0` it
calls `sendMessage(true)`, otherwise it does nothing.  Modelled over the
first rendition's `sendMessage`; the input box is irrelevant on the initial
path. -/
def onLoad (username : String) (outcome : FetchOutcome)
    (st : DomState) : DomState × List ClientAction :=
  if st.log.isEmpty then sendMessageV1 true "" username outcome st
  else (st, [])

/-- The POST requests to `/api/chat` among a list of actions, as
`(message, username)` pairs. -/
def chatRequests (as : List ClientAction) : List (String × String) :=
  as.filterMap (fun a =>
    match a with
    | ClientAction.fetchChat m u => some (m, u)
    | ClientAction.redirect _ _ _ => none)

/-- The id/counter invariant of the chat log: all ids in the log are distinct
and every id was minted as `msg-k` for some counter value `k` below the
current one. -/
def GoodIds (st : DomState) : Prop :=
  (st.log.map MessageElem.id).Nodup ∧
    ∀ e ∈ st.log, ∃ k, k < st.counter ∧ e.id = mkId k

/-- Numeric value of a decimal digit character. -/
def decodeDigit (c : Char) : Nat := c.toNat - 48

/-- Numeric value of a decimal digit string, most significant digit first. -/
def decodeDigits (l : List Char) : Nat :=
  l.foldl (fun a c => 10 * a + decodeDigit c) 0

/-- Modelled from the spec: the composite index computation of
`services/chatbot_service.py` (`_calculate_regret_index`) is not under
`src/`; `IMPLEMENTATION_GUIDE.md` states the fixed weights 애착도 30%,
후회도 25%, 미해결감 20%, 비교기준 15%, 회피/접근 10%, and the spec defines
the composite as the weighted sum of the five dimension scores. -/
def compositeIndex (attachment regret unresolved comparison avoidance : ℚ) : ℚ :=
  0.30 * attachment + 0.25 * regret + 0.20 * unresolved +
    0.15 * comparison + 0.10 * avoidance

/-- The five fixed weights, in dimension order attachment, regret,
unresolved, comparison, avoidance. -/
def compositeWeights : List ℚ := [0.30, 0.25, 0.20, 0.15, 0.10]

/-- The five interpretive bands of the composite index
(`IMPLEMENTATION_GUIDE.md`, 미련도 지수 해석 table). -/
inductive Tier where
  | cleanClosure
  | gentleAfterglow
  | moderateLingering
  | strongLingering
  | veryStrongLingering
deriving DecidableEq

/-- The Korean label of each band, from the guide's table. -/
def tierLabel : Tier → String
  | Tier.cleanClosure => "완전 정리 단계"
  | Tier.gentleAfterglow => "잔잔한 여운 단계"
  | Tier.moderateLingering => "적당한 미련 단계"
  | Tier.strongLingering => "강한 미련 단계"
  | Tier.veryStrongLingering => "매우 강한 미련 단계"

/-- The emoji marker of each band, from the guide's table. -/
def tierEmoji : Tier → String
  | Tier.cleanClosure => "💚"
  | Tier.gentleAfterglow => "💛"
  | Tier.moderateLingering => "🧡"
  | Tier.strongLingering => "❤️"
  | Tier.veryStrongLingering => "💔"

/-- Modelled from the spec: the report generator of
`services/chatbot_service.py` is not under `src/`; `IMPLEMENTATION_GUIDE.md`
shows its ascending lookup `if total <= 20: ... elif total <= 40: ...`
together with the five-band table (0-20, 21-40, 41-60, 61-80, 81-100), i.e.
an inclusive upper bound per band, evaluated in ascending order. -/
def tierOf (total : ℚ) : Tier :=
  if total ≤ 20 then Tier.cleanClosure
  else if total ≤ 40 then Tier.gentleAfterglow
  else if total ≤ 60 then Tier.moderateLingering
  else if total ≤ 80 then Tier.strongLingering
  else Tier.veryStrongLingering

/-- The range of composite values the guide's table assigns to each band,
reading each band with an inclusive upper bound (boundary values belong to
the lower band). -/
def inBand : Tier → ℚ → Prop
  | Tier.cleanClosure, x => 0 ≤ x ∧ x ≤ 20
  | Tier.gentleAfterglow, x => 20 < x ∧ x ≤ 40
  | Tier.moderateLingering, x => 40 < x ∧ x ≤ 60
  | Tier.strongLingering, x => 60 < x ∧ x ≤ 80
  | Tier.veryStrongLingering, x => 80 < x ∧ x ≤ 100

/-- A reference passage of the knowledge index, with its metadata tag. -/
structure Passage where
  text : String
  metadata : String
deriving DecidableEq

/-- Modelled from the spec: `_search_similar` of
`services/chatbot_service.py` is not under `src/` (only a fragmentary sketch
appears in the guide).  Per spec section 4.1 the retriever computes the
similarity of the query to every indexed passage (the embedding-based
similarity is abstracted as `sim`), keeps the passages with similarity at
least `threshold`, sorts them by similarity descending, and truncates to
`top_k`; an empty result is returned, not an error, when nothing clears the
threshold. -/
def retrieve (sim : String → Passage → ℚ) (index : List Passage)
    (query : String) (top_k : Nat) (threshold : ℚ) : List (Passage × ℚ) :=
  (List.insertionSort (fun a b : Passage × ℚ => b.2 ≤ a.2)
      ((index.map (fun p => (p, sim query p))).filter
        (fun pr => decide (threshold ≤ pr.2)))).take top_k

/-- The five analysis dimensions of the signal extractor. -/
inductive Dimension where
  | attachment
  | regret
  | unresolved
  | comparison
  | avoidance
deriving DecidableEq

/-- Splits a character stream into maximal runs of non-whitespace characters;
the second argument accumulates the current run in reverse. -/
def wordsAux : List Char → List Char → List (List Char)
  | [], acc => if acc.isEmpty then [] else [acc.reverse]
  | c :: cs, acc =>
      if c.isWhitespace then
        if acc.isEmpty then wordsAux cs [] else acc.reverse :: wordsAux cs []
      else wordsAux cs (c :: acc)

/-- The whitespace-separated tokens of a turn text. -/
def tokensOf (text : String) : List String :=
  (wordsAux text.data []).map (fun l => String.mk l)

/-- Modelled from the spec: the `_analyze_*` methods of
`services/chatbot_service.py` and their keyword data files are not under
`src/`.  Per spec section 4.2 a dimension's 0-100 sub-score is derived from
lexical signal (keyword presence) in the current turn combined with the
accumulated history; the per-dimension keyword set (loaded from
`emotion_keywords.txt`) is abstracted as `keywords`.  Keyword hits in the
turn text set the base signal, history turns that also carry keywords
amplify it, and the score is clamped to 100. -/
def dimensionDelta (keywords : List String) (text : String)
    (history : List String) : Nat :=
  let hits := ((tokensOf text).filter (fun t => keywords.contains t)).length
  let historyHits := (history.filter
    (fun h => (tokensOf h).any (fun t => keywords.contains t))).length
  min 100 (hits * (20 + 5 * historyHits))

/-- Modelled from the spec: `extract(turn_text, session_history)` returns the
five per-dimension sub-scores; it is a total function (degenerate input
yields scores, never an error) and pure in its arguments. -/
def extract (kw : Dimension → List String) (text : String)
    (history : List String) : Dimension → Nat :=
  fun d => dimensionDelta (kw d) text history

lemma toDigitsCore_zero_fuel (n : Nat) (acc : List Char) :
    Nat.toDigitsCore 10 0 n acc = acc := by
  simp [Nat.toDigitsCore]

lemma toDigitsCore_succ_fuel (f n : Nat) (acc : List Char) :
    Nat.toDigitsCore 10 (f + 1) n acc =
      if n / 10 = 0 then Nat.digitChar (n % 10) :: acc
      else Nat.toDigitsCore 10 f (n / 10) (Nat.digitChar (n % 10) :: acc) := by
  simp [Nat.toDigitsCore]

lemma toDigitsCore_acc (f : Nat) : ∀ (n : Nat) (acc : List Char),
    Nat.toDigitsCore 10 f n acc = Nat.toDigitsCore 10 f n [] ++ acc := by
  induction f with
  | zero => intro n acc; simp [toDigitsCore_zero_fuel]
  | succ f ih =>
    intro n acc
    rw [toDigitsCore_succ_fuel, toDigitsCore_succ_fuel]
    by_cases h : n / 10 = 0
    · simp [h]
    · rw [if_neg h, if_neg h, ih (n / 10) (Nat.digitChar (n % 10) :: acc),
        ih (n / 10) [Nat.digitChar (n % 10)], List.append_assoc]
      rfl

lemma decodeDigit_digitChar (d : Nat) (h : d < 10) :
    decodeDigit (Nat.digitChar d) = d := by
  interval_cases d <;> decide

lemma decodeDigits_append_one (l : List Char) (c : Char) :
    decodeDigits (l ++ [c]) = 10 * decodeDigits l + decodeDigit c := by
  simp [decodeDigits, List.foldl_append]

lemma decodeDigits_toDigitsCore (f : Nat) : ∀ n : Nat, n < 10 ^ f →
    decodeDigits (Nat.toDigitsCore 10 f n []) = n := by
  induction f with
  | zero =>
    intro n h
    simp [pow_zero] at h
    simp [h, toDigitsCore_zero_fuel, decodeDigits]
  | succ f ih =>
    intro n h
    rw [toDigitsCore_succ_fuel]
    by_cases h0 : n / 10 = 0
    · rw [if_pos h0]
      have hn : n < 10 := by omega
      have : decodeDigits [Nat.digitChar (n % 10)] = decodeDigit (Nat.digitChar (n % 10)) := by
        simp [decodeDigits]
      rw [this, decodeDigit_digitChar (n % 10) (Nat.mod_lt n (by omega))]
      omega
    · rw [if_neg h0, toDigitsCore_acc, decodeDigits_append_one]
      have hdiv : n / 10 < 10 ^ f := by
        have h10 : n < 10 ^ f * 10 := by
          rw [pow_succ] at h; exact h
        omega
      rw [ih (n / 10) hdiv, decodeDigit_digitChar (n % 10) (Nat.mod_lt n (by omega))]
      omega

lemma natRepr_injective {a b : Nat} (h : Nat.repr a = Nat.repr b) : a = b := by
  have hd : Nat.toDigits 10 a = Nat.toDigits 10 b := by
    have := congrArg String.data h
    simpa [Nat.repr, List.asString] using this
  have ha : a < 10 ^ (a + 1) :=
    lt_of_lt_of_le (Nat.lt_pow_self (by norm_num) a)
      (Nat.pow_le_pow_right (by norm_num) (Nat.le_succ a))
  have hb : b < 10 ^ (b + 1) :=
    lt_of_lt_of_le (Nat.lt_pow_self (by norm_num) b)
      (Nat.pow_le_pow_right (by norm_num) (Nat.le_succ b))
  have ha2 : decodeDigits (Nat.toDigits 10 a) = a :=
    decodeDigits_toDigitsCore (a + 1) a ha
  have hb2 : decodeDigits (Nat.toDigits 10 b) = b :=
    decodeDigits_toDigitsCore (b + 1) b hb
  rw [← ha2, ← hb2, hd]

lemma mkId_injective {a b : Nat} (h : mkId a = mkId b) : a = b := by
  apply natRepr_injective
  apply String.ext
  have := congrArg String.data h
  rw [mkId, mkId, String.data_append, String.data_append] at this
  exact List.append_cancel_left this

lemma goodIds_fresh {st : DomState} (h : GoodIds st) {k : Nat}
    (hk : st.counter ≤ k) : ∀ e ∈ st.log, e.id ≠ mkId k := by
  intro e he heq
  obtain ⟨j, hj, hje⟩ := h.2 e he
  have : j = k := mkId_injective (hje ▸ heq)
  omega

lemma goodIds_append {st : DomState} (h : GoodIds st) (s t : String)
    (i : Option String) : GoodIds (appendMessage s t i st).2 := by
  constructor
  · have hfresh : mkId st.counter ∉ st.log.map MessageElem.id := by
      intro hmem
      obtain ⟨e, he, heq⟩ := List.mem_map.mp hmem
      exact goodIds_fresh h le_rfl e he heq
    simp only [appendMessage, List.map_append, List.map_cons, List.map_nil]
    rw [List.nodup_append]
    exact ⟨h.1, List.nodup_singleton _, by simpa [List.disjoint_right] using hfresh⟩
  · intro e he
    simp only [appendMessage, List.mem_append, List.mem_singleton] at he
    rcases he with he | rfl
    · obtain ⟨j, hj, hje⟩ := h.2 e he
      exact ⟨j, by simp [appendMessage]; omega, hje⟩
    · exact ⟨st.counter, by simp [appendMessage], rfl⟩

lemma goodIds_recounter {st : DomState} (h : GoodIds st) {n : Nat}
    (hn : st.counter ≤ n) : GoodIds { counter := n, log := st.log } := by
  refine ⟨h.1, fun e he => ?_⟩
  obtain ⟨j, hj, hje⟩ := h.2 e he
  exact ⟨j, by simp; omega, hje⟩

lemma eraseP_append_fresh (l : List MessageElem) (e : MessageElem)
    (mid : String) (hid : e.id = mid) (h : ∀ x ∈ l, x.id ≠ mid) :
    List.eraseP (fun x => x.id == mid) (l ++ [e]) = l := by
  induction l with
  | nil => simp [List.eraseP, hid]
  | cons a l ih =>
    have ha : (a.id == mid) = false := by
      simpa using h a (List.mem_cons_self a l)
    simp only [List.cons_append, List.eraseP_cons, ha, cond_false]
    rw [ih (fun x hx => h x (List.mem_cons_of_mem a hx))]

lemma removeMessage_appendMessage {st : DomState} (h : GoodIds st)
    (s t : String) (i : Option String) :
    removeMessage (appendMessage s t i st).1 (appendMessage s t i st).2 =
      { counter := st.counter + 1, log := st.log } := by
  simp only [appendMessage, removeMessage]
  congr 1
  exact eraseP_append_fresh st.log _ (mkId st.counter) rfl (goodIds_fresh h le_rfl)

lemma eraseP_eq_filter_of_nodup (l : List MessageElem)
    (hn : (l.map MessageElem.id).Nodup) (mid : String) :
    l.eraseP (fun e => e.id == mid) = l.filter (fun e => e.id != mid) := by
  induction l with
  | nil => rfl
  | cons a l ih =>
    simp only [List.map_cons, List.nodup_cons] at hn
    by_cases h : a.id = mid
    · have hq : (a.id == mid) = true := by simpa using h
      have hq2 : (a.id != mid) = false := by simpa using h
      simp only [List.eraseP_cons, hq, cond_true, List.filter_cons, hq2,
        Bool.false_eq_true, if_false]
      symm
      rw [List.filter_eq_self]
      intro e he
      have : e.id ≠ mid := by
        intro heq
        have hmem : e.id ∈ l.map MessageElem.id := List.mem_map_of_mem MessageElem.id he
        rw [heq, ← h] at hmem
        exact hn.1 hmem
      simpa using this
    · have hq : (a.id == mid) = false := by simpa using h
      have hq2 : (a.id != mid) = true := by simpa using h
      simp only [List.eraseP_cons, hq, cond_false, List.filter_cons, hq2, if_pos]
      rw [ih hn.2]

lemma remove_fresh_append (c : Nat) (l : List MessageElem)
    (hfresh : ∀ e ∈ l, e.id ≠ mkId c) (s t : String) (i : Option String)
    (c' : Nat) :
    removeMessage (mkId c)
        { counter := c',
          log := l ++ [{ id := mkId c, sender := s,
                         textIns := TextInsertion.textContent t, image := i }] } =
      { counter := c', log := l } := by
  simp only [removeMessage]
  congr 1
  exact eraseP_append_fresh l _ (mkId c) rfl hfresh

/-- C9: for every sender and every text string, `appendMessage` inserts the
message text into the DOM via `textContent`, never `innerHTML`: the appended
element's text node renders exactly the given string, character for
character, and markup in a message (for example `<b>안녕</b>`) is displayed
as literal text, never parsed. -/
theorem appendMessage_textContent_literal (sender text : String)
    (img : Option String) (st : DomState) :
    (∃ e, (appendMessage sender text img st).2.log = st.log ++ [e] ∧
      e.textIns = TextInsertion.textContent text ∧
      renderedText e.textIns = text ∧
      ∀ s, e.textIns ≠ TextInsertion.innerHTML s) ∧
    renderedText (TextInsertion.textContent "<b>안녕</b>") = "<b>안녕</b>" := by
  exact ⟨⟨_, rfl, rfl, rfl, fun s h => by cases h⟩, rfl⟩

/-- C10: every `appendMessage` call returns the id `msg-N` of a strictly
increasing counter, so under the log invariant the ids are pairwise distinct
(the freshly minted id differs from every id already in the log, and the
invariant is preserved); consequently `removeMessage mid` removes exactly
the elements whose id is `mid` — at most the one element created under that
id — and leaves every other message in place. -/
theorem appendMessage_ids_removeMessage (st : DomState) (sender text : String)
    (img : Option String) (mid : String) (hgood : GoodIds st) :
    (appendMessage sender text img st).1 = mkId st.counter ∧
    (appendMessage sender text img st).2.counter = st.counter + 1 ∧
    GoodIds (appendMessage sender text img st).2 ∧
    (∀ e ∈ st.log, e.id ≠ (appendMessage sender text img st).1) ∧
    (removeMessage mid st).log = st.log.filter (fun e => e.id != mid) := by
  refine ⟨rfl, rfl, goodIds_append hgood sender text img,
    goodIds_fresh hgood le_rfl, ?_⟩
  simp only [removeMessage]
  exact eraseP_eq_filter_of_nodup st.log hgood.1 mid

/-- Closed instance of `appendMessage_ids_removeMessage` on a concrete
one-message log. -/
theorem appendMessage_ids_removeMessage_witness :
    GoodIds (⟨1, [⟨mkId 0, "bot", TextInsertion.textContent "안녕", none⟩]⟩ : DomState) ∧
    ((appendMessage "user" "hi" none
        ⟨1, [⟨mkId 0, "bot", TextInsertion.textContent "안녕", none⟩]⟩).1 = mkId 1 ∧
      (appendMessage "user" "hi" none
        ⟨1, [⟨mkId 0, "bot", TextInsertion.textContent "안녕", none⟩]⟩).2.counter = 1 + 1 ∧
      GoodIds (appendMessage "user" "hi" none
        ⟨1, [⟨mkId 0, "bot", TextInsertion.textContent "안녕", none⟩]⟩).2 ∧
      (∀ e ∈ (⟨1, [⟨mkId 0, "bot", TextInsertion.textContent "안녕", none⟩]⟩ : DomState).log,
        e.id ≠ (appendMessage "user" "hi" none
          ⟨1, [⟨mkId 0, "bot", TextInsertion.textContent "안녕", none⟩]⟩).1) ∧
      (removeMessage "msg-0"
          ⟨1, [⟨mkId 0, "bot", TextInsertion.textContent "안녕", none⟩]⟩).log =
        (⟨1, [⟨mkId 0, "bot", TextInsertion.textContent "안녕", none⟩]⟩ : DomState).log.filter
          (fun e => e.id != "msg-0")) :=
  have hg : GoodIds (⟨1, [⟨mkId 0, "bot", TextInsertion.textContent "안녕", none⟩]⟩ : DomState) :=
    ⟨by decide, fun e he => ⟨0, Nat.zero_lt_one, by rw [List.mem_singleton.mp he]⟩⟩
  ⟨hg, appendMessage_ids_removeMessage _ "user" "hi" none "msg-0" hg⟩

lemma replyCycleState {st : DomState} (hgood : GoodIds st) (rt : String)
    (im : Option String) :
    (appendMessage "bot" rt im
        (removeMessage (appendMessage "bot" loadingText none st).1
          (appendMessage "bot" loadingText none st).2)).2 =
      ⟨st.counter + 1 + 1, st.log ++
        [⟨mkId (st.counter + 1), "bot", TextInsertion.textContent rt, im⟩]⟩ := by
  rw [removeMessage_appendMessage hgood]
  rfl

lemma replyCycleGood {st : DomState} (hgood : GoodIds st) (rt : String)
    (im : Option String) :
    GoodIds (⟨st.counter + 1 + 1, st.log ++
      [⟨mkId (st.counter + 1), "bot", TextInsertion.textContent rt, im⟩]⟩ : DomState) :=
  goodIds_append (goodIds_recounter hgood (Nat.le_succ _)) "bot" rt im

lemma sendBodyV1_redirect (m u : String) {data : ChatResponse}
    {rec : Recommendation} (hrec : data.program_recommendation = some rec)
    {st : DomState} (hgood : GoodIds st) :
    sendBodyV1 m u (FetchOutcome.response true data) st =
      (⟨st.counter + 1, st.log⟩,
       [ClientAction.fetchChat m u,
        ClientAction.redirect (jsOrStr rec.image (jsOrStr data.image ""))
          (jsOrStr rec.message (jsOrStr data.reply ""))
          (jsOrStr rec.sentiment "positive")]) := by
  simp only [sendBodyV1, hrec, Bool.true_eq_false, if_false]
  rw [removeMessage_appendMessage hgood]
  rfl

lemma sendBodyV1_reply (m u : String) {data : ChatResponse}
    (hrec : data.program_recommendation = none)
    {st : DomState} (hgood : GoodIds st) :
    sendBodyV1 m u (FetchOutcome.response true data) st =
      (⟨st.counter + 1 + 1, st.log ++
         [⟨mkId (st.counter + 1), "bot",
           TextInsertion.textContent (jsOrStr data.reply ""), jsOrNull data.image⟩]⟩,
       [ClientAction.fetchChat m u]) := by
  simp only [sendBodyV1, hrec, Bool.true_eq_false, if_false]
  rw [replyCycleState hgood]

lemma sendBodyV1_error (m u : String) (outcome : FetchOutcome)
    {st : DomState} (hgood : GoodIds st)
    (herr : outcome = FetchOutcome.reject ∨
      ∃ d, outcome = FetchOutcome.response false d) :
    sendBodyV1 m u outcome st =
      (⟨st.counter + 1 + 1, st.log ++
         [⟨mkId (st.counter + 1), "bot",
           TextInsertion.textContent sendErrorText, none⟩]⟩,
       [ClientAction.fetchChat m u]) := by
  rcases herr with rfl | ⟨d, rfl⟩
  · simp only [sendBodyV1]
    rw [replyCycleState hgood]
  · simp only [sendBodyV1]
    rw [if_pos trivial, replyCycleState hgood]

/-- C1: for every `/api/chat` response whose body contains a
`program_recommendation` object, the first rendition's `sendMessage`
immediately redirects to `/program_recommendation` carrying the `image`,
`message` and `sentiment` query parameters, and returns with the chat log
exactly as it stood before the fetch — no reply text, no image and no
report follow-up are rendered or requested; for every response without
`program_recommendation`, no redirect occurs. -/
theorem sendMessage_redirect_precedence
    (isInitial : Bool) (inputValue username : String) (data : ChatResponse)
    (st : DomState) (hgood : GoodIds st)
    (hmsg : isInitial = false → inputValue.trim ≠ "") :
    (∀ rec, data.program_recommendation = some rec →
      sendMessageV1 isInitial inputValue username
          (FetchOutcome.response true data) st =
        (⟨(if isInitial then st
             else (appendMessage "user" inputValue.trim none st).2).counter + 1,
          (if isInitial then st
             else (appendMessage "user" inputValue.trim none st).2).log⟩,
         [ClientAction.fetchChat (if isInitial then "init" else inputValue.trim) username,
          ClientAction.redirect (jsOrStr rec.image (jsOrStr data.image ""))
            (jsOrStr rec.message (jsOrStr data.reply ""))
            (jsOrStr rec.sentiment "positive")])) ∧
    (data.program_recommendation = none →
      ∀ (ok : Bool) (i m s : String),
        ClientAction.redirect i m s ∉
          (sendMessageV1 isInitial inputValue username
            (FetchOutcome.response ok data) st).2) := by
  constructor
  · intro rec hrec
    cases isInitial with
    | true =>
      simp only [sendMessageV1, if_true]
      rw [sendBodyV1_redirect "init" username hrec hgood]
    | false =>
      have hne := hmsg rfl
      have hg2 := goodIds_append hgood "user" inputValue.trim none
      simp only [sendMessageV1, Bool.false_eq_true, if_false, if_neg hne]
      rw [sendBodyV1_redirect inputValue.trim username hrec hg2]
  · intro hnone ok i m s
    cases isInitial with
    | true =>
      simp only [sendMessageV1, if_true]
      cases ok with
      | true =>
        rw [sendBodyV1_reply "init" username hnone hgood]
        simp
      | false =>
        rw [sendBodyV1_error "init" username _ hgood (Or.inr ⟨data, rfl⟩)]
        simp
    | false =>
      have hne := hmsg rfl
      have hg2 := goodIds_append hgood "user" inputValue.trim none
      simp only [sendMessageV1, Bool.false_eq_true, if_false, if_neg hne]
      cases ok with
      | true =>
        rw [sendBodyV1_reply inputValue.trim username hnone hg2]
        simp
      | false =>
        rw [sendBodyV1_error inputValue.trim username _ hg2 (Or.inr ⟨data, rfl⟩)]
        simp

/-- Closed instance of `sendMessage_redirect_precedence`: an initial send on
an empty log whose response carries a recommendation redirects at once. -/
theorem sendMessage_redirect_precedence_witness :
    GoodIds (⟨0, []⟩ : DomState) ∧
    ((true : Bool) = false → ("" : String).trim ≠ "") ∧
    sendMessageV1 true "" "유저"
        (FetchOutcome.response true
          ⟨some "네!", none, none, some ⟨some "p.png", some "추천", some "positive"⟩⟩)
        ⟨0, []⟩ =
      ((⟨1, []⟩ : DomState),
       [ClientAction.fetchChat "init" "유저",
        ClientAction.redirect "p.png" "추천" "positive"]) :=
  have hg : GoodIds (⟨0, []⟩ : DomState) :=
    ⟨List.nodup_nil, fun e he => absurd he (List.not_mem_nil e)⟩
  have hv : (true : Bool) = false → ("" : String).trim ≠ "" :=
    fun hh => Bool.noConfusion hh
  ⟨hg, hv,
    (sendMessage_redirect_precedence true "" "유저"
        ⟨some "네!", none, none, some ⟨some "p.png", some "추천", some "positive"⟩⟩
        ⟨0, []⟩ hg hv).1
      ⟨some "p.png", some "추천", some "positive"⟩ rfl⟩

lemma sendBodyV2_error (m u : String) (outcome outcome2 : FetchOutcome)
    {st : DomState} (hgood : GoodIds st)
    (herr : outcome = FetchOutcome.reject ∨
      ∃ d, outcome = FetchOutcome.response false d) :
    sendBodyV2 m u outcome outcome2 st =
      (⟨st.counter + 1 + 1, st.log ++
         [⟨mkId (st.counter + 1), "bot",
           TextInsertion.textContent sendErrorText, none⟩]⟩,
       [ClientAction.fetchChat m u]) := by
  rcases herr with rfl | ⟨d, rfl⟩
  · simp only [sendBodyV2]
    rw [replyCycleState hgood]
  · simp only [sendBodyV2]
    rw [if_pos trivial, replyCycleState hgood]

lemma sendBodyV2_no_report (m u : String) {data : ChatResponse}
    (hflag : data.needs_report_generation ≠ some true)
    (outcome2 : FetchOutcome) {st : DomState} (hgood : GoodIds st) :
    sendBodyV2 m u (FetchOutcome.response true data) outcome2 st =
      (⟨st.counter + 1 + 1, st.log ++
         [⟨mkId (st.counter + 1), "bot",
           TextInsertion.textContent (jsOrStr data.reply ""), jsOrNull data.image⟩]⟩,
       [ClientAction.fetchChat m u]) := by
  simp only [sendBodyV2, Bool.true_eq_false, if_false]
  rw [replyCycleState hgood, if_neg hflag]

lemma sendBodyV2_report (m u : String) {data : ChatResponse}
    (hflag : data.needs_report_generation = some true)
    (ok2 : Bool) (data2 : ChatResponse) {st : DomState} (hgood : GoodIds st) :
    sendBodyV2 m u (FetchOutcome.response true data)
        (FetchOutcome.response ok2 data2) st =
      (⟨st.counter + 1 + 1 + 1 + 1, st.log ++
         [⟨mkId (st.counter + 1), "bot",
            TextInsertion.textContent (jsOrStr data.reply ""), jsOrNull data.image⟩,
          ⟨mkId (st.counter + 1 + 1 + 1), "bot",
            TextInsertion.textContent (jsOrStr data2.reply ""), jsOrNull data2.image⟩]⟩,
       [ClientAction.fetchChat m u, ClientAction.fetchChat "" u]) := by
  have hg3 : GoodIds (⟨st.counter + 1 + 1, st.log ++
      [⟨mkId (st.counter + 1), "bot",
        TextInsertion.textContent (jsOrStr data.reply ""), jsOrNull data.image⟩]⟩ : DomState) :=
    replyCycleGood hgood (jsOrStr data.reply "") (jsOrNull data.image)
  simp only [sendBodyV2, Bool.true_eq_false, if_false, reportFollowUp]
  rw [replyCycleState hgood, if_pos hflag]
  rw [replyCycleState hg3]
  simp

/-- C6: for every send attempt on which the fetch rejects or the HTTP status
is not ok, both renditions of `sendMessage` remove the pending loading
bubble and append exactly one bot message whose text is the fixed polite
retry string `sendErrorText` — never raw diagnostic detail — so the
attempted turn still produces a user-visible reply (the final log is the
pre-fetch log plus exactly that one bot message, and no redirect or
follow-up request happens). -/
theorem sendMessage_error_fixed_reply
    (isInitial : Bool) (inputValue username : String)
    (outcome outcome2 : FetchOutcome) (st : DomState)
    (hgood : GoodIds st) (hmsg : isInitial = false → inputValue.trim ≠ "")
    (herr : outcome = FetchOutcome.reject ∨
      ∃ d, outcome = FetchOutcome.response false d) :
    sendMessageV1 isInitial inputValue username outcome st =
      (⟨(if isInitial then st
           else (appendMessage "user" inputValue.trim none st).2).counter + 1 + 1,
        (if isInitial then st
           else (appendMessage "user" inputValue.trim none st).2).log ++
          [⟨mkId ((if isInitial then st
              else (appendMessage "user" inputValue.trim none st).2).counter + 1), "bot",
            TextInsertion.textContent sendErrorText, none⟩]⟩,
       [ClientAction.fetchChat (if isInitial then "init" else inputValue.trim) username]) ∧
    sendMessageV2 isInitial inputValue username outcome outcome2 st =
      (⟨(if isInitial then st
           else (appendMessage "user" inputValue.trim none st).2).counter + 1 + 1,
        (if isInitial then st
           else (appendMessage "user" inputValue.trim none st).2).log ++
          [⟨mkId ((if isInitial then st
              else (appendMessage "user" inputValue.trim none st).2).counter + 1), "bot",
            TextInsertion.textContent sendErrorText, none⟩]⟩,
       [ClientAction.fetchChat (if isInitial then "init" else inputValue.trim) username]) := by
  cases isInitial with
  | true =>
    simp only [sendMessageV1, sendMessageV2, if_true]
    exact ⟨sendBodyV1_error "init" username outcome hgood herr,
      sendBodyV2_error "init" username outcome outcome2 hgood herr⟩
  | false =>
    have hne := hmsg rfl
    have hg2 := goodIds_append hgood "user" inputValue.trim none
    simp only [sendMessageV1, sendMessageV2, Bool.false_eq_true, if_false, if_neg hne]
    exact ⟨sendBodyV1_error inputValue.trim username outcome hg2 herr,
      sendBodyV2_error inputValue.trim username outcome outcome2 hg2 herr⟩

/-- Closed instance of `sendMessage_error_fixed_reply`: a rejected initial
fetch on an empty log yields exactly the fixed fallback bot message in both
renditions. -/
theorem sendMessage_error_fixed_reply_witness :
    GoodIds (⟨0, []⟩ : DomState) ∧
    ((true : Bool) = false → ("" : String).trim ≠ "") ∧
    (FetchOutcome.reject = FetchOutcome.reject ∨
      ∃ d, FetchOutcome.reject = FetchOutcome.response false d) ∧
    (sendMessageV1 true "" "유저" FetchOutcome.reject ⟨0, []⟩ =
      ((⟨2, [⟨mkId 1, "bot", TextInsertion.textContent sendErrorText, none⟩]⟩ : DomState),
       [ClientAction.fetchChat "init" "유저"]) ∧
     sendMessageV2 true "" "유저" FetchOutcome.reject FetchOutcome.reject ⟨0, []⟩ =
      ((⟨2, [⟨mkId 1, "bot", TextInsertion.textContent sendErrorText, none⟩]⟩ : DomState),
       [ClientAction.fetchChat "init" "유저"])) :=
  have hg : GoodIds (⟨0, []⟩ : DomState) :=
    ⟨List.nodup_nil, fun e he => absurd he (List.not_mem_nil e)⟩
  have hv : (true : Bool) = false → ("" : String).trim ≠ "" :=
    fun hh => Bool.noConfusion hh
  have he : FetchOutcome.reject = FetchOutcome.reject ∨
      ∃ d, FetchOutcome.reject = FetchOutcome.response false d := Or.inl rfl
  ⟨hg, hv, he,
    sendMessage_error_fixed_reply true "" "유저" FetchOutcome.reject
      FetchOutcome.reject ⟨0, []⟩ hg hv he⟩

/-- C2: for every `/api/chat` response with `needs_report_generation === true`
received by the second rendition's `sendMessage`, the client issues exactly
one follow-up POST to `/api/chat` whose body is the empty message with the
same username, and renders that follow-up's reply as a bot message (the
final log is the pre-fetch log plus the first reply and the follow-up
reply); when the flag is absent or not `true`, only the original POST is
sent. -/
theorem sendMessage_needs_report_follow_up
    (isInitial : Bool) (inputValue username : String) (data data2 : ChatResponse)
    (ok2 : Bool) (st : DomState) (hgood : GoodIds st)
    (hmsg : isInitial = false → inputValue.trim ≠ "") :
    (data.needs_report_generation = some true →
      sendMessageV2 isInitial inputValue username (FetchOutcome.response true data)
          (FetchOutcome.response ok2 data2) st =
        (⟨(if isInitial then st
             else (appendMessage "user" inputValue.trim none st).2).counter + 1 + 1 + 1 + 1,
          (if isInitial then st
             else (appendMessage "user" inputValue.trim none st).2).log ++
            [⟨mkId ((if isInitial then st
                else (appendMessage "user" inputValue.trim none st).2).counter + 1), "bot",
              TextInsertion.textContent (jsOrStr data.reply ""), jsOrNull data.image⟩,
             ⟨mkId ((if isInitial then st
                else (appendMessage "user" inputValue.trim none st).2).counter + 1 + 1 + 1), "bot",
              TextInsertion.textContent (jsOrStr data2.reply ""), jsOrNull data2.image⟩]⟩,
         [ClientAction.fetchChat (if isInitial then "init" else inputValue.trim) username,
          ClientAction.fetchChat "" username])) ∧
    (data.needs_report_generation ≠ some true →
      sendMessageV2 isInitial inputValue username (FetchOutcome.response true data)
          (FetchOutcome.response ok2 data2) st =
        (⟨(if isInitial then st
             else (appendMessage "user" inputValue.trim none st).2).counter + 1 + 1,
          (if isInitial then st
             else (appendMessage "user" inputValue.trim none st).2).log ++
            [⟨mkId ((if isInitial then st
                else (appendMessage "user" inputValue.trim none st).2).counter + 1), "bot",
              TextInsertion.textContent (jsOrStr data.reply ""), jsOrNull data.image⟩]⟩,
         [ClientAction.fetchChat (if isInitial then "init" else inputValue.trim) username])) := by
  constructor
  · intro hflag
    cases isInitial with
    | true =>
      simp only [sendMessageV2, if_true]
      exact sendBodyV2_report "init" username hflag ok2 data2 hgood
    | false =>
      have hne := hmsg rfl
      have hg2 := goodIds_append hgood "user" inputValue.trim none
      simp only [sendMessageV2, Bool.false_eq_true, if_false, if_neg hne]
      exact sendBodyV2_report inputValue.trim username hflag ok2 data2 hg2
  · intro hflag
    cases isInitial with
    | true =>
      simp only [sendMessageV2, if_true]
      exact sendBodyV2_no_report "init" username hflag _ hgood
    | false =>
      have hne := hmsg rfl
      have hg2 := goodIds_append hgood "user" inputValue.trim none
      simp only [sendMessageV2, Bool.false_eq_true, if_false, if_neg hne]
      exact sendBodyV2_no_report inputValue.trim username hflag _ hg2

/-- Closed instance of `sendMessage_needs_report_follow_up`: an initial send
whose response sets the flag triggers exactly one empty-message follow-up. -/
theorem sendMessage_needs_report_follow_up_witness :
    GoodIds (⟨0, []⟩ : DomState) ∧
    ((true : Bool) = false → ("" : String).trim ≠ "") ∧
    (ChatResponse.needs_report_generation ⟨some "잠깐만!", none, some true, none⟩ = some true) ∧
    sendMessageV2 true "" "유저"
        (FetchOutcome.response true ⟨some "잠깐만!", none, some true, none⟩)
        (FetchOutcome.response true ⟨some "리포트 결과", none, none, none⟩) ⟨0, []⟩ =
      ((⟨4, [⟨mkId 1, "bot", TextInsertion.textContent "잠깐만!", none⟩,
             ⟨mkId 3, "bot", TextInsertion.textContent "리포트 결과", none⟩]⟩ : DomState),
       [ClientAction.fetchChat "init" "유저", ClientAction.fetchChat "" "유저"]) :=
  have hg : GoodIds (⟨0, []⟩ : DomState) :=
    ⟨List.nodup_nil, fun e he => absurd he (List.not_mem_nil e)⟩
  have hv : (true : Bool) = false → ("" : String).trim ≠ "" :=
    fun hh => Bool.noConfusion hh
  ⟨hg, hv, rfl,
    (sendMessage_needs_report_follow_up true "" "유저"
        ⟨some "잠깐만!", none, some true, none⟩
        ⟨some "리포트 결과", none, none, none⟩ true ⟨0, []⟩ hg hv).1 rfl⟩

lemma chatRequests_sendBodyV1 (m u : String) (outcome : FetchOutcome)
    (st : DomState) :
    chatRequests (sendBodyV1 m u outcome st).2 = [(m, u)] := by
  cases outcome with
  | reject => simp [sendBodyV1, chatRequests]
  | response ok data =>
    cases ok with
    | false => simp [sendBodyV1, chatRequests]
    | true =>
      cases hrec : data.program_recommendation with
      | none => simp [sendBodyV1, hrec, chatRequests]
      | some rec => simp [sendBodyV1, hrec, chatRequests]

lemma sendBodyV1_nil_senders (m u : String) (outcome : FetchOutcome) (c : Nat) :
    ∀ e ∈ (sendBodyV1 m u outcome (⟨c, []⟩ : DomState)).1.log,
      e.sender = "bot" := by
  have hg : GoodIds (⟨c, []⟩ : DomState) :=
    ⟨List.nodup_nil, fun e he => absurd he (List.not_mem_nil e)⟩
  cases outcome with
  | reject =>
    rw [sendBodyV1_error m u _ hg (Or.inl rfl)]
    intro e he
    simp only [List.nil_append, List.mem_singleton] at he
    rw [he]
  | response ok data =>
    cases ok with
    | false =>
      rw [sendBodyV1_error m u _ hg (Or.inr ⟨data, rfl⟩)]
      intro e he
      simp only [List.nil_append, List.mem_singleton] at he
      rw [he]
    | true =>
      cases hrec : data.program_recommendation with
      | none =>
        rw [sendBodyV1_reply m u hrec hg]
        intro e he
        simp only [List.nil_append, List.mem_singleton] at he
        rw [he]
      | some rec =>
        rw [sendBodyV1_redirect m u hrec hg]
        intro e he
        simp only [List.not_mem_nil] at he

/-- C8: on page load, when the chat log is empty the client sends exactly
one `/api/chat` request whose message is the literal string `"init"`
(without appending any user message to the log — whatever the outcome, only
bot messages can appear); when the chat log is non-empty on load, nothing
is sent and the DOM is untouched. -/
theorem load_handler_init (username : String) (outcome : FetchOutcome)
    (st : DomState) :
    (st.log = [] →
      chatRequests (onLoad username outcome st).2 = [("init", username)] ∧
      ∀ e ∈ (onLoad username outcome st).1.log, e.sender = "bot") ∧
    (st.log ≠ [] → onLoad username outcome st = (st, [])) := by
  constructor
  · intro hnil
    cases st with
    | mk c l =>
      dsimp only at hnil
      subst hnil
      constructor
      · simp only [onLoad, List.isEmpty_nil, if_true, sendMessageV1]
        exact chatRequests_sendBodyV1 "init" username outcome _
      · simp only [onLoad, List.isEmpty_nil, if_true, sendMessageV1]
        exact sendBodyV1_nil_senders "init" username outcome c
  · intro hne
    cases hl : st.log with
    | nil => exact absurd hl hne
    | cons a l =>
      cases st with
      | mk c l2 =>
        dsimp only at hl
        subst hl
        simp [onLoad]

/-- Closed instance of `load_handler_init`: loading over an empty log sends
the single init request. -/
theorem load_handler_init_witness :
    (([] : List MessageElem) = []) ∧
    (chatRequests (onLoad "유저" FetchOutcome.reject ⟨0, []⟩).2 = [("init", "유저")] ∧
      ∀ e ∈ (onLoad "유저" FetchOutcome.reject ⟨0, []⟩).1.log, e.sender = "bot") :=
  ⟨rfl, (load_handler_init "유저" FetchOutcome.reject ⟨0, []⟩).1 rfl⟩

/-- C3: the composite index is exactly the weighted sum
0.30·attachment + 0.25·regret + 0.20·unresolved + 0.15·comparison +
0.10·avoidance; the five weights sum to 1, and for dimension scores in
[0,100] the composite always lies in [0,100]. -/
theorem compositeIndex_weighted_sum_bounds :
    compositeWeights.sum = 1 ∧
    ∀ a r u c v : ℚ,
      0 ≤ a → a ≤ 100 → 0 ≤ r → r ≤ 100 → 0 ≤ u → u ≤ 100 →
      0 ≤ c → c ≤ 100 → 0 ≤ v → v ≤ 100 →
      compositeIndex a r u c v =
          0.30 * a + 0.25 * r + 0.20 * u + 0.15 * c + 0.10 * v ∧
        0 ≤ compositeIndex a r u c v ∧ compositeIndex a r u c v ≤ 100 := by
  constructor
  · norm_num [compositeWeights]
  · intro a r u c v ha0 ha1 hr0 hr1 hu0 hu1 hc0 hc1 hv0 hv1
    refine ⟨rfl, ?_, ?_⟩
    · simp only [compositeIndex]
      linarith
    · simp only [compositeIndex]
      linarith

/-- Closed instance of `compositeIndex_weighted_sum_bounds` at the scores
(80, 60, 40, 20, 0). -/
theorem compositeIndex_weighted_sum_bounds_witness :
    ((0:ℚ) ≤ 80 ∧ (80:ℚ) ≤ 100 ∧ (0:ℚ) ≤ 60 ∧ (60:ℚ) ≤ 100 ∧
      (0:ℚ) ≤ 40 ∧ (40:ℚ) ≤ 100 ∧ (0:ℚ) ≤ 20 ∧ (20:ℚ) ≤ 100 ∧
      (0:ℚ) ≤ 0 ∧ (0:ℚ) ≤ 100) ∧
    (compositeIndex 80 60 40 20 0 =
        0.30 * 80 + 0.25 * 60 + 0.20 * 40 + 0.15 * 20 + 0.10 * 0 ∧
      0 ≤ compositeIndex 80 60 40 20 0 ∧ compositeIndex 80 60 40 20 0 ≤ 100) :=
  ⟨⟨by decide, by decide, by decide, by decide, by decide, by decide,
    by decide, by decide, by decide, by decide⟩,
    compositeIndex_weighted_sum_bounds.2 80 60 40 20 0 (by decide) (by decide)
      (by decide) (by decide) (by decide) (by decide) (by decide) (by decide)
      (by decide) (by decide)⟩

/-- C4: the tier lookup is total on [0,100] and the five bands partition
[0,100] with no gaps or overlaps — every composite value lies in the band of
its tier and in no other band — and each boundary value 20, 40, 60, 80 maps
to the lower band (inclusive upper bound, ascending evaluation). -/
theorem tierOf_total_partition :
    (∀ x : ℚ, 0 ≤ x → x ≤ 100 →
      inBand (tierOf x) x ∧ ∀ t, inBand t x → t = tierOf x) ∧
    tierOf 20 = Tier.cleanClosure ∧ tierOf 40 = Tier.gentleAfterglow ∧
    tierOf 60 = Tier.moderateLingering ∧ tierOf 80 = Tier.strongLingering := by
  refine ⟨?_, ?_, ?_, ?_, ?_⟩
  · intro x h0 h1
    unfold tierOf
    split_ifs with h2 h3 h4 h5
    · refine ⟨⟨h0, h2⟩, fun t ht => ?_⟩
      cases t <;> simp only [inBand] at ht <;>
        first
          | rfl
          | (exfalso; rcases ht with ⟨ht1, ht2⟩; linarith)
    · refine ⟨⟨not_le.mp h2, h3⟩, fun t ht => ?_⟩
      cases t <;> simp only [inBand] at ht <;>
        first
          | rfl
          | (exfalso; rcases ht with ⟨ht1, ht2⟩; linarith)
    · refine ⟨⟨not_le.mp h3, h4⟩, fun t ht => ?_⟩
      cases t <;> simp only [inBand] at ht <;>
        first
          | rfl
          | (exfalso; rcases ht with ⟨ht1, ht2⟩; linarith)
    · refine ⟨⟨not_le.mp h4, h5⟩, fun t ht => ?_⟩
      cases t <;> simp only [inBand] at ht <;>
        first
          | rfl
          | (exfalso; rcases ht with ⟨ht1, ht2⟩; linarith)
    · refine ⟨⟨not_le.mp h5, h1⟩, fun t ht => ?_⟩
      cases t <;> simp only [inBand] at ht <;>
        first
          | rfl
          | (exfalso; rcases ht with ⟨ht1, ht2⟩; linarith)
  · norm_num [tierOf]
  · norm_num [tierOf]
  · norm_num [tierOf]
  · norm_num [tierOf]

/-- Closed instance of `tierOf_total_partition` at composite value 50. -/
theorem tierOf_total_partition_witness :
    ((0:ℚ) ≤ 50 ∧ (50:ℚ) ≤ 100) ∧
    (inBand (tierOf 50) 50 ∧ ∀ t, inBand t 50 → t = tierOf 50) :=
  ⟨⟨by decide, by decide⟩, tierOf_total_partition.1 50 (by decide) (by decide)⟩

/-- C5: every passage kept by `retrieve` has similarity at least the
threshold, the similarities come back in non-increasing order, the result
has at most `top_k` entries, and when no passage clears the threshold the
result is the empty list rather than an error. -/
theorem retrieve_contract
    (sim : String → Passage → ℚ) (index : List Passage) (query : String)
    (top_k : Nat) (threshold : ℚ) :
    (∀ pr ∈ retrieve sim index query top_k threshold, threshold ≤ pr.2) ∧
    List.Pairwise (fun a b : Passage × ℚ => b.2 ≤ a.2)
      (retrieve sim index query top_k threshold) ∧
    (retrieve sim index query top_k threshold).length ≤ top_k ∧
    ((∀ p ∈ index, sim query p < threshold) →
      retrieve sim index query top_k threshold = []) := by
  refine ⟨?_, ?_, ?_, ?_⟩
  · intro pr hpr
    have h1 : pr ∈ List.insertionSort (fun a b : Passage × ℚ => b.2 ≤ a.2)
        ((index.map (fun p => (p, sim query p))).filter
          (fun pr => decide (threshold ≤ pr.2))) :=
      (List.take_sublist _ _).subset hpr
    have h2 := (List.perm_insertionSort
      (fun a b : Passage × ℚ => b.2 ≤ a.2) _).mem_iff.mp h1
    exact of_decide_eq_true (List.mem_filter.mp h2).2
  · haveI : IsTrans (Passage × ℚ) (fun a b => b.2 ≤ a.2) :=
      ⟨fun a b c hab hbc => le_trans hbc hab⟩
    haveI : IsTotal (Passage × ℚ) (fun a b => b.2 ≤ a.2) :=
      ⟨fun a b => le_total b.2 a.2⟩
    exact List.Pairwise.sublist (List.take_sublist _ _)
      (List.sorted_insertionSort (fun a b : Passage × ℚ => b.2 ≤ a.2) _)
  · exact List.length_take_le _ _
  · intro hall
    have hfilter : (index.map (fun p => (p, sim query p))).filter
        (fun pr => decide (threshold ≤ pr.2)) = [] := by
      rw [List.filter_eq_nil_iff]
      intro pr hpr
      obtain ⟨p, hp, rfl⟩ := List.mem_map.mp hpr
      simpa using not_le.mpr (hall p hp)
    simp only [retrieve, hfilter, List.insertionSort, List.take_nil]

/-- Closed instance of `retrieve_contract`: a one-passage index in which
nothing clears the threshold yields the empty result. -/
theorem retrieve_contract_witness :
    (∀ p ∈ [Passage.mk "그리움" "감정"], (fun _ _ => (0:ℚ)) "질문" p < 1) ∧
    retrieve (fun _ _ => (0:ℚ)) [Passage.mk "그리움" "감정"] "질문" 3 1 = [] :=
  have h : ∀ p ∈ [Passage.mk "그리움" "감정"], (fun _ _ => (0:ℚ)) "질문" p < 1 :=
    fun p _ => (by decide : (0:ℚ) < 1)
  ⟨h, (retrieve_contract (fun _ _ => (0:ℚ))
    [Passage.mk "그리움" "감정"] "질문" 3 1).2.2.2 h⟩

lemma wordsAux_all_whitespace (l : List Char)
    (h : ∀ c ∈ l, c.isWhitespace = true) : wordsAux l [] = [] := by
  induction l with
  | nil => rfl
  | cons c cs ih =>
    have hc : c.isWhitespace = true := h c (List.mem_cons_self c cs)
    simp only [wordsAux, hc, if_true, List.isEmpty_nil]
    exact ih (fun c' hc' => h c' (List.mem_cons_of_mem c hc'))

/-- C7: for every keyword table and every history, `extract` applied to an
empty or whitespace-only turn text yields an all-zero delta on every one of
the five dimensions; `extract` is a total function, so no error is possible. -/
theorem extract_whitespace_all_zero
    (kw : Dimension → List String) (text : String) (history : List String)
    (hws : ∀ c ∈ text.data, c.isWhitespace = true) :
    ∀ d, extract kw text history d = 0 := by
  intro d
  have ht : tokensOf text = [] := by
    unfold tokensOf
    rw [wordsAux_all_whitespace text.data hws]
    rfl
  simp [extract, dimensionDelta, ht]

/-- Closed instance of `extract_whitespace_all_zero`: a two-space turn text
scores zero on the regret dimension even with a regret-laden history. -/
theorem extract_whitespace_all_zero_witness :
    (∀ c ∈ ("  " : String).data, c.isWhitespace = true) ∧
    extract (fun _ => ["후회"]) "  " ["그때 정말 후회돼"] Dimension.regret = 0 :=
  have h : ∀ c ∈ ("  " : String).data, c.isWhitespace = true := by decide
  ⟨h, extract_whitespace_all_zero (fun _ => ["후회"]) "  "
    ["그때 정말 후회돼"] h Dimension.regret⟩

/-- Closed instance of `appendMessage_textContent_literal` at a markup-laden
message on an empty log. -/
theorem appendMessage_textContent_literal_witness :
    (∃ e, (appendMessage "bot" "<b>안녕</b>" none ⟨0, []⟩).2.log =
        (⟨0, []⟩ : DomState).log ++ [e] ∧
      e.textIns = TextInsertion.textContent "<b>안녕</b>" ∧
      renderedText e.textIns = "<b>안녕</b>" ∧
      ∀ s, e.textIns ≠ TextInsertion.innerHTML s) ∧
    renderedText (TextInsertion.textContent "<b>안녕</b>") = "<b>안녕</b>" :=
  appendMessage_textContent_literal "bot" "<b>안녕</b>" none ⟨0, []⟩
